import Mathlib

/-!
# Verification of the store2-go-client core machinery

A shallow embedding, in Lean 4, of the shared machinery of the
meplato/store2-go-client repository:

* the request-path templating engine behind `meplatoapi.Expand`
  (`internal/meplatoapi/meplatoapi.go`); the template parser/expander
  itself is not present in the inspected sources, only its caller, so
  those two functions are modelled from the specification (parse and
  expand contracts of the PathTemplate engine);
* the response/error decoding contract (`meplatoapi.CheckResponse` and
  the shared `Do` response handling, e.g. `MeService.Do` in `store2.go`);
* the selective-update serialization of `products.UpdateProduct`
  (pointer-typed optional fields, `omitempty` JSON tags);
* the scroll (cursor) pagination calling convention
  (`products.ScrollService.Do` and the iteration loop shown in
  `products_test.go`).

The external collaborators (the JSON codec of `encoding/json`, the HTTP
transport) are taken as parameters or as already-performed effects: a
response is a status code plus a fully read body, and JSON
unmarshalling enters as an explicit function argument where the Go code
calls into `encoding/json`.
-/

namespace Store2

/-- A character constant for the opening brace of a template expression. -/
def braceOpen : Char := Char.ofNat 123

/-- A character constant for the closing brace of a template expression. -/
def braceClose : Char := Char.ofNat 125

/-- Values that appear in the `map[string]interface{}` expansion parameter
maps built by the generated `Do` methods: the call sites only ever insert
strings (`pin`, `area`, `spn`, `q`, `sort`, `mode`, `pageToken`, ...),
`int64` values (`skip`, `take`, `version`) and booleans. -/
inductive GoValue where
  | str (s : String)
  | int (n : Int)
  | bool (b : Bool)
deriving DecidableEq, Repr

/-- Modelled from the spec: a parameter value is "stringified per a fixed,
lossless rule" before percent-encoding (string/number/bool). -/
def GoValue.stringify : GoValue → String
  | .str s => s
  | .int n => toString n
  | .bool b => if b then "true" else "false"

/-- A parameter set: the `map[string]interface{}` handed to
`meplatoapi.Expand`, modelled as an association list queried by key
(the Go code only ever looks keys up, never iterates the map). -/
abbrev ParameterSet := List (String × GoValue)

/-- Upper-case hexadecimal digit. -/
def hexUpper (n : Nat) : Char :=
  "0123456789ABCDEF".data.getD n '0'

/-- UTF-8 bytes of a Unicode code point (standard arithmetic encoding). -/
def utf8Bytes (n : Nat) : List Nat :=
  if n < 128 then [n]
  else if n < 2048 then [192 + n / 64, 128 + n % 64]
  else if n < 65536 then [224 + n / 4096, 128 + n / 64 % 64, 128 + n % 64]
  else [240 + n / 262144, 128 + n / 4096 % 64, 128 + n / 64 % 64, 128 + n % 64]

/-- Modelled from the spec: percent-encoding keeps unreserved characters
(ALPHA / DIGIT / `-` / `.` / `_` / `~`) and encodes every other character,
reserving `/ ? # [ ] @ ! $ & ' ( ) * + , ; =` per standard
component-encoding rules. -/
def isUnreserved (c : Char) : Bool :=
  c.isAlphanum || c = '-' || c = '.' || c = '_' || c = '~'

/-- Percent-encode a single character (identity on unreserved characters,
`%XX` per UTF-8 byte otherwise). -/
def percentEncodeChar (c : Char) : String :=
  if isUnreserved c then String.singleton c
  else String.mk ((utf8Bytes c.toNat).foldr
    (fun b acc => '%' :: hexUpper (b / 16) :: hexUpper (b % 16) :: acc) [])

/-- Modelled from the spec: component percent-encoding of a string. -/
def percentEncode (s : String) : String :=
  s.data.foldl (fun acc c => acc ++ percentEncodeChar c) ""

/-- Modelled from the spec: a template is an ordered sequence of segments,
each a literal, a required path variable, or a trailing query-form
expression with its declared, ordered variable list. -/
inductive Segment where
  | lit (text : String)
  | pathVar (name : String)
  | query (vars : List String)
deriving DecidableEq, Repr

/-- A parsed template. -/
abbrev Template := List Segment

/-- Modelled from the spec: the client-side error taxonomy of the
PathTemplate engine — `TemplateSyntaxError` (unbalanced braces, unknown
operators) and `MissingVariableError`. -/
inductive TemplateError where
  | malformed (msg : String)
  | missingVariable (name : String)
deriving DecidableEq, Repr

/-- Split a character list at commas (variable list of `\x7b?a,b,c\x7d`). -/
def splitCommaAux : List Char → List Char → List String
  | acc, [] => [String.mk acc.reverse]
  | acc, c :: cs =>
    if c = ',' then String.mk acc.reverse :: splitCommaAux [] cs
    else splitCommaAux (c :: acc) cs

/-- Characters allowed to start a simple (no-operator) variable name. -/
def isVarChar (c : Char) : Bool :=
  c.isAlphanum || c = '_'

/-- Modelled from the spec: classify the body of a braced expression.
`operator` is either none (simple path substitution, one variable) or
query-form (leading `?`, comma-separated declared variable list); any
other leading operator character is unknown. -/
def mkExpr (inner : List Char) : Except TemplateError Segment :=
  match inner with
  | [] => .error (.malformed "empty expression")
  | c :: rest =>
    if c = '?' then .ok (.query (splitCommaAux [] rest))
    else if isVarChar c then .ok (.pathVar (String.mk (c :: rest)))
    else .error (.malformed "unknown operator")

/-- State of the single-pass template scanner. -/
structure ParseState where
  segs : List Segment
  litAcc : List Char
  exprAcc : Option (List Char)
  fail : Option TemplateError
deriving Repr

/-- Append the pending literal characters (if any) as a literal segment. -/
def flushLit (segs : List Segment) (litAcc : List Char) : List Segment :=
  if litAcc.isEmpty then segs else segs ++ [.lit (String.mk litAcc)]

/-- One scanner step of the template parser. -/
def parseStep (st : ParseState) (c : Char) : ParseState :=
  if st.fail.isSome then st
  else
    match st.exprAcc with
    | none =>
      if c = braceOpen then
        { segs := flushLit st.segs st.litAcc, litAcc := [], exprAcc := some [], fail := none }
      else if c = braceClose then
        { st with fail := some (.malformed "unbalanced braces") }
      else
        { st with litAcc := st.litAcc ++ [c] }
    | some acc =>
      if c = braceClose then
        match mkExpr acc with
        | .ok seg => { st with segs := st.segs ++ [seg], exprAcc := none }
        | .error e => { st with fail := some e }
      else if c = braceOpen then
        { st with fail := some (.malformed "unbalanced braces") }
      else
        { st with exprAcc := some (acc ++ [c]) }

/-- Modelled from the spec: `parse(pattern) -> Template`, failing with a
`TemplateSyntaxError` on unbalanced braces or unknown operators (the
template engine behind `meplatoapi.Parse` is not among the inspected
sources). -/
def parse (pattern : String) : Except TemplateError Template :=
  let st := pattern.data.foldl parseStep ⟨[], [], none, none⟩
  match st.fail with
  | some e => .error e
  | none =>
    match st.exprAcc with
    | some _ => .error (.malformed "unbalanced braces")
    | none => .ok (flushLit st.segs st.litAcc)

/-- One iteration of the query-form expansion loop: a present variable
appends `key=percentEncode(value)` to the block, prefixed by `?` when the
block is still empty and by `&` otherwise; an absent variable leaves the
block unchanged. -/
def queryStep (params : ParameterSet) (acc : String) (v : String) : String :=
  match params.lookup v with
  | none => acc
  | some x => (if acc.isEmpty then "?" else acc ++ "&") ++ v ++ "=" ++ percentEncode x.stringify

/-- Modelled from the spec: a query-form expression is expanded by
iterating the declared variable list in order and accumulating the
emitted pairs. -/
def expandQuery (vars : List String) (params : ParameterSet) : String :=
  vars.foldl (queryStep params) ""

/-- Modelled from the spec: expand a parsed template against a parameter
set — copy literals verbatim, substitute the percent-encoded value of a
required path variable (absent value is a `MissingVariableError`), and
expand a query-form expression via `expandQuery`. -/
def expandTemplate : Template → ParameterSet → Except TemplateError String
  | [], _ => .ok ""
  | .lit t :: rest, params => (expandTemplate rest params).map (fun s => t ++ s)
  | .pathVar v :: rest, params =>
    match params.lookup v with
    | none => .error (.missingVariable v)
    | some x => (expandTemplate rest params).map (fun s => percentEncode x.stringify ++ s)
  | .query vs :: rest, params => (expandTemplate rest params).map (fun s => expandQuery vs params ++ s)

/-- Embeds `meplatoapi.Expand` (meplatoapi.go): parse the path pattern,
then expand it against the parameter map (the engine itself is modelled
from the spec, see `parse` and `expandTemplate`). -/
def Expand (path : String) (params : ParameterSet) : Except TemplateError String :=
  match parse path with
  | .error e => .error e
  | .ok t => expandTemplate t params

/-- The declared-order list of `key=percentEncode(value)` pairs for the
variables of a query-form expression that are present in the parameter
set (the declarative description of the query block used by the claims). -/
def queryPairs (vars : List String) (params : ParameterSet) : List String :=
  vars.filterMap fun v =>
    (params.lookup v).map fun x => v ++ "=" ++ percentEncode x.stringify

theorem intercalate_go_eq_foldl (s : String) :
    ∀ (as : List String) (acc : String),
      String.intercalate.go acc s as = as.foldl (fun b a => b ++ s ++ a) acc := by
  intro as
  induction as with
  | nil => intro acc; rfl
  | cons a as ih => intro acc; simp [String.intercalate.go, ih]

theorem ne_empty_append (a b : String) (h : a ≠ "") : a ++ b ≠ "" := by
  intro hab
  apply h
  have hd := congrArg String.data hab
  simp at hd
  apply String.ext
  simp [hd.1]

theorem isEmpty_false_of_ne (a : String) (h : a ≠ "") : a.isEmpty = false := by
  cases he : a.isEmpty
  · rfl
  · exact absurd ((String.isEmpty_iff a).mp he) h

theorem foldl_queryStep_of_ne (params : ParameterSet) :
    ∀ (vars : List String) (acc : String), acc ≠ "" →
      List.foldl (queryStep params) acc vars =
        List.foldl (fun b a => b ++ "&" ++ a) acc (queryPairs vars params) := by
  intro vars
  induction vars with
  | nil => intro acc _; rfl
  | cons v vs ih =>
    intro acc hacc
    simp only [List.foldl, queryPairs, List.filterMap]
    cases hv : params.lookup v with
    | none =>
      simpa [queryStep, hv, queryPairs] using ih acc hacc
    | some x =>
      have h1 : queryStep params acc v = acc ++ "&" ++ (v ++ "=" ++ percentEncode x.stringify) := by
        simp [queryStep, hv, isEmpty_false_of_ne acc hacc, String.append_assoc]
      rw [h1]
      have h2 := ih (acc ++ "&" ++ (v ++ "=" ++ percentEncode x.stringify))
        (ne_empty_append _ _ (ne_empty_append _ _ hacc))
      simpa [queryPairs, hv] using h2

theorem foldl_append_pull (s pre : String) :
    ∀ (xs : List String) (p : String),
      List.foldl (fun b a => b ++ s ++ a) (pre ++ p) xs =
        pre ++ List.foldl (fun b a => b ++ s ++ a) p xs := by
  intro xs
  induction xs with
  | nil => intro p; rfl
  | cons x xs ih =>
    intro p
    simp only [List.foldl]
    rw [show (pre ++ p) ++ s ++ x = pre ++ (p ++ s ++ x) by simp [String.append_assoc]]
    exact ih (p ++ s ++ x)

theorem expandQuery_characterization (vars : List String) (params : ParameterSet) :
    expandQuery vars params =
      if queryPairs vars params = [] then ""
      else "?" ++ String.intercalate "&" (queryPairs vars params) := by
  cases vars with
  | nil => rfl
  | cons v vs =>
    unfold expandQuery
    simp only [List.foldl]
    cases hv : params.lookup v with
    | none =>
      have : queryStep params "" v = "" := by simp [queryStep, hv]
      rw [this]
      have h2 : queryPairs (v :: vs) params = queryPairs vs params := by
        simp [queryPairs, hv]
      rw [h2]
      exact expandQuery_characterization vs params
    | some x =>
      set p := v ++ "=" ++ percentEncode x.stringify with hp
      have hstep : queryStep params "" v = "?" ++ p := by
        simp [queryStep, hv, hp, String.append_assoc, show "".isEmpty = true from rfl]
      rw [hstep]
      have hpairs : queryPairs (v :: vs) params = p :: queryPairs vs params := by
        simp [queryPairs, hv, hp]
      rw [hpairs]
      have hne : ("?" ++ p) ≠ "" := ne_empty_append _ _ (by decide)
      rw [foldl_queryStep_of_ne params vs ("?" ++ p) hne]
      rw [if_neg (by simp)]
      rw [String.intercalate]
      rw [intercalate_go_eq_foldl]
      exact foldl_append_pull "&" "?" (queryPairs vs params) p

theorem queryPairs_filter_absent (params : ParameterSet) (v : String)
    (hv : params.lookup v = none) :
    ∀ vars : List String,
      queryPairs (vars.filter (fun w => w ≠ v)) params = queryPairs vars params := by
  intro vars
  induction vars with
  | nil => rfl
  | cons w ws ih =>
    by_cases hw : w = v
    · subst hw
      rw [List.filter_cons_of_neg (by simp)]
      rw [ih]
      simp [queryPairs, List.filterMap_cons, hv]
    · rw [List.filter_cons_of_pos (by simp [hw])]
      simp only [queryPairs, List.filterMap_cons] at ih ⊢
      rw [ih]

/-- Claim C1: for every query-form expression and parameter set, expansion
iterates the declared variable list in declared order, emits
`key=percentEncode(value)` for exactly the declared variables present in
the parameter set, joins the included pairs with `&`, and prefixes the
block with `?` exactly when at least one pair was emitted; an absent
variable contributes nothing (it is as if it were not declared), and the
query block is what a `Segment.query` contributes to full template
expansion. -/
theorem queryFormExpansion_correct (vars : List String) (params : ParameterSet) :
    (expandQuery vars params =
      if queryPairs vars params = [] then ""
      else "?" ++ String.intercalate "&" (queryPairs vars params))
    ∧ (∀ v, params.lookup v = none →
        expandQuery vars params = expandQuery (vars.filter (fun w => w ≠ v)) params)
    ∧ (∀ rest : Template,
        expandTemplate (Segment.query vars :: rest) params =
          (expandTemplate rest params).map (fun s => expandQuery vars params ++ s)) := by
  refine ⟨expandQuery_characterization vars params, ?_, ?_⟩
  · intro v hv
    rw [expandQuery_characterization vars params,
      expandQuery_characterization (vars.filter (fun w => w ≠ v)) params,
      queryPairs_filter_absent params v hv]
  · intro rest
    rfl

set_option maxRecDepth 4000 in
/-- Witness for C1 at the products-search template's declared query list
`q,skip,take,sort` with only `skip` present. -/
theorem queryFormExpansion_correct_witness :
    expandQuery ["q", "skip", "take", "sort"] [("skip", GoValue.int 10)] = "?skip=10"
    ∧ expandQuery ["q", "skip", "take", "sort"] [("skip", GoValue.int 10)] =
        expandQuery ["skip", "take", "sort"] [("skip", GoValue.int 10)] := by
  constructor
  · rw [(queryFormExpansion_correct ["q", "skip", "take", "sort"] [("skip", GoValue.int 10)]).1]
    rfl
  · have h := (queryFormExpansion_correct ["q", "skip", "take", "sort"]
      [("skip", GoValue.int 10)]).2.1 "q" (by rfl)
    simpa using h

theorem expandTemplate_missingVar :
    ∀ (tpl : Template) (params : ParameterSet) (v : String),
      Segment.pathVar v ∈ tpl → params.lookup v = none →
      ∃ w, expandTemplate tpl params = .error (.missingVariable w) ∧
        Segment.pathVar w ∈ tpl ∧ params.lookup w = none := by
  intro tpl
  induction tpl with
  | nil => intro params v hv _; cases hv
  | cons seg rest ih =>
    intro params v hv hnone
    cases seg with
    | lit t =>
      have hv' : Segment.pathVar v ∈ rest := by
        cases hv with
        | tail _ h => exact h
      obtain ⟨w, hw, hmem, hwnone⟩ := ih params v hv' hnone
      exact ⟨w, by simp [expandTemplate, hw, Except.map], List.mem_cons_of_mem _ hmem, hwnone⟩
    | pathVar u =>
      cases hu : params.lookup u with
      | none =>
        exact ⟨u, by simp [expandTemplate, hu], List.mem_cons_self _ _, hu⟩
      | some x =>
        have hv' : Segment.pathVar v ∈ rest := by
          cases hv with
          | head =>
            rw [hu] at hnone
            cases hnone
          | tail _ h => exact h
        obtain ⟨w, hw, hmem, hwnone⟩ := ih params v hv' hnone
        exact ⟨w, by simp [expandTemplate, hu, hw, Except.map], List.mem_cons_of_mem _ hmem, hwnone⟩
    | query vs =>
      have hv' : Segment.pathVar v ∈ rest := by
        cases hv with
        | tail _ h => exact h
      obtain ⟨w, hw, hmem, hwnone⟩ := ih params v hv' hnone
      exact ⟨w, by simp [expandTemplate, hw, Except.map], List.mem_cons_of_mem _ hmem, hwnone⟩

set_option maxRecDepth 10000 in
/-- Claim C6: expansion fails with a `MissingVariableError` naming a
missing required (non-query-form) path variable whenever one has no
present value in the parameter set; in particular, expanding the
products-search template with `pin` absent fails naming `pin`. -/
theorem missingVariableError_on_absent_required :
    (∀ (tpl : Template) (params : ParameterSet) (v : String),
        Segment.pathVar v ∈ tpl → params.lookup v = none →
        ∃ w, expandTemplate tpl params = .error (.missingVariable w) ∧
          Segment.pathVar w ∈ tpl ∧ params.lookup w = none)
    ∧ Expand "/catalogs/{pin}/{area}/products{?q,skip,take,sort}"
        [("area", GoValue.str "work"), ("skip", GoValue.int 10)] =
        Except.error (.missingVariable "pin") :=
  ⟨expandTemplate_missingVar, rfl⟩

set_option maxRecDepth 2000 in
/-- Witness for C6 at the parsed products-search template with `pin`
absent from the parameter set. -/
theorem missingVariableError_on_absent_required_witness :
    ∃ w, expandTemplate
        [Segment.lit "/catalogs/", Segment.pathVar "pin", Segment.lit "/",
         Segment.pathVar "area", Segment.lit "/products",
         Segment.query ["q", "skip", "take", "sort"]]
        [("area", GoValue.str "work")] = .error (.missingVariable w) ∧
      Segment.pathVar w ∈
        [Segment.lit "/catalogs/", Segment.pathVar "pin", Segment.lit "/",
         Segment.pathVar "area", Segment.lit "/products",
         Segment.query ["q", "skip", "take", "sort"]] ∧
      List.lookup w [("area", GoValue.str "work")] = none :=
  missingVariableError_on_absent_required.1 _ _ "pin" (by simp) (by rfl)

set_option maxRecDepth 10000 in
/-- Claim C8: the products-search template expands against
`pin = AD8CCDD5F9`, `area = work`, `skip = 10` to exactly
`/catalogs/AD8CCDD5F9/work/products?skip=10`. -/
theorem searchTemplate_expansion_example :
    Expand "/catalogs/{pin}/{area}/products{?q,skip,take,sort}"
        [("pin", GoValue.str "AD8CCDD5F9"), ("area", GoValue.str "work"),
         ("skip", GoValue.int 10)] =
      Except.ok "/catalogs/AD8CCDD5F9/work/products?skip=10" := rfl

/-- Embeds `meplatoapi.Error` (meplatoapi.go): `Code` is the HTTP response
status code, `Message` the server response message, `Details` the error
details, `Body` the raw response body. -/
structure GoError where
  code : Int
  message : String
  details : List String
  body : String
deriving DecidableEq, Repr

/-- Embeds `meplatoapi.errorReply`, the decoded wire envelope
`\x7b"error": ...\x7d`; the `Error` pointer may be nil (`none`). -/
structure ErrorReply where
  error : Option GoError
deriving DecidableEq, Repr

/-- Embeds `meplatoapi.CheckResponse` (meplatoapi.go): `nil` for a 2xx
status; otherwise the body is read in full and unmarshalled into
`errorReply` — on success with a non-nil envelope, the envelope is
returned with `Code` backfilled from the HTTP status when zero and the
raw body attached; otherwise the fallback error carries the status code
and the raw body.  `json.Unmarshal` is the external JSON codec, passed
as `unmarshal` (`none` models an unmarshal error). -/
def CheckResponse (unmarshal : String → Option ErrorReply)
    (statusCode : Int) (body : String) : Option GoError :=
  if 200 ≤ statusCode ∧ statusCode ≤ 299 then none
  else
    match unmarshal body with
    | some reply =>
      match reply.error with
      | some e =>
        some { e with code := if e.code = 0 then statusCode else e.code, body := body }
      | none => some { code := statusCode, message := "", details := [], body := body }
    | none => some { code := statusCode, message := "", details := [], body := body }

/-- The error result of a generated `Do` method: either the `*Error`
produced by `CheckResponse`, or the JSON decode failure of a 2xx body. -/
inductive DoError where
  | api (e : GoError)
  | decodeFailed
deriving DecidableEq, Repr

/-- Embeds the shared response handling of every generated `Do` method
(e.g. `MeService.Do` in store2.go): run `CheckResponse`, return its error
if any, then JSON-decode the body into the expected result type `R`
(`decodeResult` is the external JSON codec for `R`; `none` models a
decode error). -/
def serviceDo {R : Type} (unmarshal : String → Option ErrorReply)
    (decodeResult : String → Option R)
    (statusCode : Int) (body : String) : Except DoError R :=
  match CheckResponse unmarshal statusCode body with
  | some e => .error (.api e)
  | none =>
    match decodeResult body with
    | some ret => .ok ret
    | none => .error .decodeFailed

/-- The concrete wire body of the required-field server rejection used by
the spec and by `TestProductCreateParameterMissing`. -/
def spnBody : String :=
  "\x7b\"error\":\x7b\"code\":400,\"message\":\"SPN must not be blank\"\x7d\x7d"

/-- Modelled from the spec: the external JSON codec's result on the
concrete `spnBody` wire envelope (code 400, message "SPN must not be
blank", no details; `Body` has no lowercase JSON key, so it decodes to
its zero value). -/
def spnUnmarshal : String → Option ErrorReply := fun s =>
  if s = spnBody then some ⟨some ⟨400, "SPN must not be blank", [], ""⟩⟩ else none

/-- Claim C2: for every non-2xx response whose body unmarshals to a
non-nil error envelope, `CheckResponse` returns that envelope with its
code replaced by the HTTP status exactly when the decoded code is zero,
the message kept as the server's literal text, and the raw body
attached; in particular the `SPN must not be blank` envelope decodes to
an error with exactly that message. -/
theorem structuredErrorEnvelope_decoding :
    (∀ (unmarshal : String → Option ErrorReply) (statusCode : Int)
        (body : String) (env : GoError),
      ¬(200 ≤ statusCode ∧ statusCode ≤ 299) →
      unmarshal body = some ⟨some env⟩ →
      CheckResponse unmarshal statusCode body =
        some { env with
                code := if env.code = 0 then statusCode else env.code,
                body := body })
    ∧ CheckResponse spnUnmarshal 400 spnBody =
        some ⟨400, "SPN must not be blank", [], spnBody⟩ := by
  constructor
  · intro unmarshal statusCode body env hst hun
    simp [CheckResponse, hst, hun]
  · rfl

/-- Witness for C2 at HTTP status 400 with the concrete `spnBody`
envelope. -/
theorem structuredErrorEnvelope_decoding_witness :
    CheckResponse spnUnmarshal 400 spnBody =
      some { code := if (400 : Int) = 0 then 400 else 400, message := "SPN must not be blank",
             details := [], body := spnBody } :=
  structuredErrorEnvelope_decoding.1 spnUnmarshal 400 spnBody
    ⟨400, "SPN must not be blank", [], ""⟩ (by decide) (by rfl)

/-- On every non-2xx status, `CheckResponse` produces an error, and that
error carries the raw response body. -/
theorem checkResponse_some_of_not2xx
    (unmarshal : String → Option ErrorReply) (statusCode : Int) (body : String)
    (hst : ¬(200 ≤ statusCode ∧ statusCode ≤ 299)) :
    ∃ e, CheckResponse unmarshal statusCode body = some e ∧ e.body = body := by
  cases hun : unmarshal body with
  | none =>
    exact ⟨⟨statusCode, "", [], body⟩, by simp [CheckResponse, hst, hun], rfl⟩
  | some reply =>
    cases he : reply.error with
    | none =>
      exact ⟨⟨statusCode, "", [], body⟩, by simp [CheckResponse, hst, hun, he], rfl⟩
    | some e =>
      exact ⟨⟨if e.code = 0 then statusCode else e.code, e.message, e.details, body⟩,
        by simp [CheckResponse, hst, hun, he], rfl⟩

/-- Claim C7: every non-2xx response whose body does not unmarshal to a
non-nil envelope yields the fallback error carrying the HTTP status as
its code and the raw body; and on every non-2xx path, structured or
fallback, the returned error carries the raw body. -/
theorem fallbackError_and_rawBody :
    (∀ (unmarshal : String → Option ErrorReply) (statusCode : Int) (body : String),
      ¬(200 ≤ statusCode ∧ statusCode ≤ 299) →
      (unmarshal body = none ∨ unmarshal body = some ⟨none⟩) →
      CheckResponse unmarshal statusCode body =
        some { code := statusCode, message := "", details := [], body := body })
    ∧ (∀ (unmarshal : String → Option ErrorReply) (statusCode : Int) (body : String),
      ¬(200 ≤ statusCode ∧ statusCode ≤ 299) →
      ∃ e, CheckResponse unmarshal statusCode body = some e ∧ e.body = body) := by
  constructor
  · intro unmarshal statusCode body hst hun
    cases hun with
    | inl h => simp [CheckResponse, hst, h]
    | inr h => simp [CheckResponse, hst, h]
  · exact checkResponse_some_of_not2xx

/-- Witness for C7: a 502 response with the non-JSON body `Bad Gateway`
(the codec rejects it) yields the fallback error carrying status and raw
body. -/
theorem fallbackError_and_rawBody_witness :
    CheckResponse (fun _ => none) 502 "Bad Gateway" =
      some { code := 502, message := "", details := [], body := "Bad Gateway" } :=
  fallbackError_and_rawBody.1 (fun _ => none) 502 "Bad Gateway" (by decide) (Or.inl rfl)

/-- Claim C5: a generated `Do` succeeds with a decoded result exactly
when the HTTP status is 2xx and the body decodes into the expected
result type; a 2xx body that fails to decode yields the decode error,
and every non-2xx response yields an error. -/
theorem doOutcome_characterized :
    ∀ {R : Type} (unmarshal : String → Option ErrorReply)
      (decodeResult : String → Option R) (statusCode : Int) (body : String),
      (∀ r : R, serviceDo unmarshal decodeResult statusCode body = .ok r ↔
        ((200 ≤ statusCode ∧ statusCode ≤ 299) ∧ decodeResult body = some r))
      ∧ ((200 ≤ statusCode ∧ statusCode ≤ 299) → decodeResult body = none →
          serviceDo unmarshal decodeResult statusCode body = .error .decodeFailed)
      ∧ (¬(200 ≤ statusCode ∧ statusCode ≤ 299) →
          ∃ e, serviceDo unmarshal decodeResult statusCode body = .error (.api e)) := by
  intro R unmarshal decodeResult statusCode body
  by_cases hst : 200 ≤ statusCode ∧ statusCode ≤ 299
  · have hchk : CheckResponse unmarshal statusCode body = none := by
      simp [CheckResponse, hst]
    refine ⟨?_, ?_, ?_⟩
    · intro r
      cases hdec : decodeResult body with
      | none => simp [serviceDo, hchk, hdec, hst]
      | some r2 =>
        simp only [serviceDo, hchk, hdec]
        constructor
        · intro h
          cases h
          exact ⟨hst, rfl⟩
        · rintro ⟨-, h⟩
          cases h
          rfl
    · intro _ hdec
      simp [serviceDo, hchk, hdec]
    · intro h
      exact absurd hst h
  · obtain ⟨e, he, -⟩ := checkResponse_some_of_not2xx unmarshal statusCode body hst
    refine ⟨?_, ?_, ?_⟩
    · intro r
      simp [serviceDo, he, hst]
    · intro h
      exact absurd h hst
    · intro _
      exact ⟨e, by simp [serviceDo, he]⟩

/-- Witness for C5: a 200 response whose body decodes to `7` succeeds
with `7`; flipping to a decode failure or a 404 yields the matching
errors. -/
theorem doOutcome_characterized_witness :
    serviceDo (R := Nat) (fun _ => none) (fun _ => some 7) 200 "7" = .ok 7
    ∧ serviceDo (R := Nat) (fun _ => none) (fun _ => none) 200 "oops" =
        .error .decodeFailed
    ∧ ∃ e, serviceDo (R := Nat) (fun _ => none) (fun _ => some 7) 404 "nope" =
        .error (.api e) :=
  ⟨((doOutcome_characterized (fun _ => none) (fun _ => some 7) 200 "7").1 7).mpr
      ⟨by decide, rfl⟩,
   (doOutcome_characterized (fun _ => none) (fun _ => none) 200 "oops").2.1
      (by decide) rfl,
   (doOutcome_characterized (fun _ => none) (fun _ => some 7) 404 "nope").2.2
      (by decide)⟩

/-- Embeds the pagination-relevant fields of `products.ScrollResponse`
(products.go): the slice of items of this result and the `PageToken`
that "needs to be passed to get the next slice of products. It is blank
if there are no more products." (Items are identified by an opaque
string; the remaining response fields play no role in the protocol.) -/
structure ScrollResponse where
  items : List String
  pageToken : String
deriving DecidableEq, Repr

/-- Outcome of driving a scroll iteration: `finished calls visited` when
a blank token ended the iteration after `calls` calls, or `ranOut
visited` when the call budget was exhausted with the server still
returning non-blank tokens. -/
inductive ScrollOutcome where
  | finished (calls : Nat) (visited : List String)
  | ranOut (visited : List String)
deriving DecidableEq, Repr

/-- Embeds the scroll iteration convention (the loop in
`TestProductScroll`, products_test.go, together with the `PageToken`
documentation in products.go; each single call is `ScrollService.Do`,
which relays the supplied token verbatim): call, collect the returned
items, stop when the returned token is blank, otherwise feed the token
into the next call unchanged.  `server` maps the zero-based call index
to its response; `fuel` bounds the number of calls, making the driver
total — the Go loop itself has no such bound. -/
def scrollLoop (server : Nat → ScrollResponse) :
    Nat → Nat → List String → ScrollOutcome
  | 0, _, acc => .ranOut acc
  | fuel + 1, i, acc =>
    let res := server i
    if res.pageToken = "" then .finished (i + 1) (acc ++ res.items)
    else scrollLoop server fuel (i + 1) (acc ++ res.items)

/-- The sequence of tokens the scroll client sends: the first call
carries no token, each later call carries the previous response's token
verbatim, and calls continue exactly while the received token is
non-blank. -/
def sentTokens (server : Nat → ScrollResponse) : Nat → Nat → List (Option String)
  | 0, _ => []
  | fuel + 1, i =>
    (if i = 0 then none else some (server (i - 1)).pageToken) ::
      (if (server i).pageToken = "" then []
       else sentTokens server fuel (i + 1))

/-- A two-page scroll conversation: the first response carries token
`T1`, the second a blank token. -/
def twoPageServer : Nat → ScrollResponse :=
  fun i => if i = 0 then ⟨["p1", "p2"], "T1"⟩ else ⟨["p3"], ""⟩

/-- Claim C4: the scroll iteration reaches the `Done` state exactly when
a response's page token is blank (a blank token finishes at that call, a
non-blank token continues with the next call), and for the conversation
whose first response carries token `T1` and whose second carries the
blank token, the run terminates after exactly two calls having visited
the two pages' items in order, each server-supplied item exactly as
often as the server supplied it. -/
theorem scrollDone_iff_blankToken :
    (∀ (server : Nat → ScrollResponse) (fuel i : Nat) (acc : List String),
      ((server i).pageToken = "" →
        scrollLoop server (fuel + 1) i acc = .finished (i + 1) (acc ++ (server i).items))
      ∧ ((server i).pageToken ≠ "" →
        scrollLoop server (fuel + 1) i acc =
          scrollLoop server fuel (i + 1) (acc ++ (server i).items)))
    ∧ (∀ (server : Nat → ScrollResponse) (I1 I2 : List String) (fuel : Nat),
      server 0 = ⟨I1, "T1"⟩ → server 1 = ⟨I2, ""⟩ →
      scrollLoop server (fuel + 2) 0 [] = .finished 2 (I1 ++ I2)
      ∧ ∀ x, (I1 ++ I2).count x = I1.count x + I2.count x) := by
  constructor
  · intro server fuel i acc
    constructor
    · intro h
      simp [scrollLoop, h]
    · intro h
      simp [scrollLoop, h]
  · intro server I1 I2 fuel h0 h1
    constructor
    · have step0 : scrollLoop server (fuel + 2) 0 [] = scrollLoop server (fuel + 1) 1 I1 := by
        simp [scrollLoop, h0]
      have step1 : scrollLoop server (fuel + 1) 1 I1 = .finished 2 (I1 ++ I2) := by
        simp [scrollLoop, h1]
      rw [step0, step1]
    · intro x
      exact List.count_append x I1 I2

/-- Witness for C4 at the concrete two-page conversation. -/
theorem scrollDone_iff_blankToken_witness :
    scrollLoop twoPageServer 2 0 [] = .finished 2 ["p1", "p2", "p3"]
    ∧ ∀ x, (["p1", "p2"] ++ ["p3"] : List String).count x =
        (["p1", "p2"] : List String).count x + (["p3"] : List String).count x := by
  have h := scrollDone_iff_blankToken.2 twoPageServer ["p1", "p2"] ["p3"] 0 rfl rfl
  exact ⟨h.1, h.2⟩

/-- A misbehaving server that returns the same non-blank token `T1` on
every call. -/
def repeatingServer : Nat → ScrollResponse := fun _ => ⟨["a"], "T1"⟩

/-- Counterexample to claim C9: against a server that repeats the token
`T1`, the scroll client does not abort — having already sent `T1` at the
second call, it sends the very same token again at the third call and
keeps iterating until its budget runs out, rather than treating the
repeat as a protocol anomaly. -/
theorem repeatedToken_noAbort_counterexample :
    sentTokens repeatingServer 3 0 = [none, some "T1", some "T1"]
    ∧ scrollLoop repeatingServer 3 0 [] = .ranOut ["a", "a", "a"] := by
  constructor <;> rfl

/-- Claim C9 (amended): the client performs no repeated-token detection —
each call after the first relays the previous response's token verbatim,
and as long as the server returns non-blank tokens (repeated or not) the
iteration keeps issuing calls and only ever stops by exhausting its call
budget. -/
theorem scroll_relaysRepeatedTokens :
    (∀ (server : Nat → ScrollResponse) (fuel i : Nat),
      sentTokens server (fuel + 1) (i + 1) =
        some (server i).pageToken ::
          (if (server (i + 1)).pageToken = "" then []
           else sentTokens server fuel (i + 2)))
    ∧ (∀ (server : Nat → ScrollResponse), (∀ i, (server i).pageToken ≠ "") →
        ∀ (fuel i : Nat) (acc : List String),
          ∃ visited, scrollLoop server fuel i acc = .ranOut visited) := by
  constructor
  · intro server fuel i
    simp [sentTokens]
  · intro server hserver fuel
    induction fuel with
    | zero => intro i acc; exact ⟨acc, rfl⟩
    | succ fuel ih =>
      intro i acc
      obtain ⟨visited, hv⟩ := ih (i + 1) (acc ++ (server i).items)
      exact ⟨visited, by simp [scrollLoop, hserver i, hv]⟩

/-- Witness for C9 (amended) at the repeating server. -/
theorem scroll_relaysRepeatedTokens_witness :
    sentTokens repeatingServer 2 1 =
      some "T1" :: sentTokens repeatingServer 1 2
    ∧ ∃ visited, scrollLoop repeatingServer 2 0 [] = .ranOut visited := by
  constructor
  · have h := scroll_relaysRepeatedTokens.1 repeatingServer 1 0
    simpa [repeatingServer] using h
  · exact scroll_relaysRepeatedTokens.2 repeatingServer (fun i => by simp [repeatingServer]) 2 0 []

/-- Embeds the builder state of `products.ScrollService` (products.go):
`pin` and `area` are plain string fields (zero value `""` until the
fluent setter is called), while `mode`, `pageToken` and `version` live
in the untyped `opt_` map only once their setter was called. -/
structure ScrollService where
  pin : String
  area : String
  mode : Option String
  pageToken : Option String
  version : Option Int
deriving DecidableEq, Repr

/-- Embeds `NewScrollService`: zero-valued fields, empty `opt_` map. -/
def NewScrollService : ScrollService := ⟨"", "", none, none, none⟩

/-- Embeds the parameter-map construction of `ScrollService.Do`
(products.go): `area` and `pin` are inserted unconditionally, `mode`,
`pageToken` and `version` only when present in `opt_`. -/
def ScrollService.params (s : ScrollService) : ParameterSet :=
  [("area", GoValue.str s.area)]
  ++ (match s.mode with | some v => [("mode", GoValue.str v)] | none => [])
  ++ (match s.pageToken with | some v => [("pageToken", GoValue.str v)] | none => [])
  ++ [("pin", GoValue.str s.pin)]
  ++ (match s.version with | some v => [("version", GoValue.int v)] | none => [])

/-- The path template used by `ScrollService.Do`. -/
def scrollPath : String := "/catalogs/{pin}/{area}/products/scroll{?pageToken,mode,version}"

/-- Embeds the builder state of `products.UpdateService` relevant to URL
construction: `pin`, `area` and `spn` are plain string fields (the
update payload itself travels in the request body, not the URL). -/
structure UpdateService where
  pin : String
  area : String
  spn : String
deriving DecidableEq, Repr

/-- Embeds `NewUpdateService` (zero-valued fields). -/
def NewUpdateService : UpdateService := ⟨"", "", ""⟩

/-- Embeds the parameter-map construction of `UpdateService.Do`
(products.go): `area`, `pin` and `spn` are all inserted
unconditionally. -/
def UpdateService.params (u : UpdateService) : ParameterSet :=
  [("area", GoValue.str u.area), ("pin", GoValue.str u.pin), ("spn", GoValue.str u.spn)]

/-- The path template used by `UpdateService.Do`. -/
def updatePath : String := "/catalogs/{pin}/{area}/products/{spn}"

/-- Embeds the builder state of the availabilities `DeleteService`
(package availabilities): `spn` is a plain string field, `region` and
`zipCode` live in the `opt_` map only once set. -/
structure AvailabilitiesDeleteService where
  spn : String
  region : Option String
  zipCode : Option String
deriving DecidableEq, Repr

/-- Embeds the availabilities `NewDeleteService`. -/
def NewAvailabilitiesDeleteService : AvailabilitiesDeleteService := ⟨"", none, none⟩

/-- Embeds the parameter-map construction of the availabilities
`DeleteService.Do`: `spn` is inserted unconditionally, `region` and
`zipCode` only when present in `opt_`. -/
def AvailabilitiesDeleteService.params (d : AvailabilitiesDeleteService) : ParameterSet :=
  (match d.region with | some v => [("region", GoValue.str v)] | none => [])
  ++ [("spn", GoValue.str d.spn)]
  ++ (match d.zipCode with | some v => [("zipCode", GoValue.str v)] | none => [])

/-- The path template used by the availabilities `DeleteService.Do`. -/
def availabilitiesDeletePath : String := "/api/v2/products/{spn}/availabilities{?region,zipCode}"

/-- Expansion succeeds whenever every required path variable of the
template has a present value. -/
theorem expandTemplate_ok_of_present :
    ∀ (tpl : Template) (params : ParameterSet),
      (∀ v, Segment.pathVar v ∈ tpl → (params.lookup v).isSome = true) →
      ∃ out, expandTemplate tpl params = .ok out := by
  intro tpl
  induction tpl with
  | nil => intro params _; exact ⟨"", rfl⟩
  | cons seg rest ih =>
    intro params h
    cases seg with
    | lit t =>
      obtain ⟨out, hout⟩ := ih params (fun v hv => h v (List.mem_cons_of_mem _ hv))
      exact ⟨t ++ out, by simp [expandTemplate, hout, Except.map]⟩
    | pathVar u =>
      have hu := h u (List.mem_cons_self _ _)
      cases hl : params.lookup u with
      | none => rw [hl] at hu; cases hu
      | some x =>
        obtain ⟨out, hout⟩ := ih params (fun v hv => h v (List.mem_cons_of_mem _ hv))
        exact ⟨percentEncode x.stringify ++ out, by simp [expandTemplate, hl, hout, Except.map]⟩
    | query vs =>
      obtain ⟨out, hout⟩ := ih params (fun v hv => h v (List.mem_cons_of_mem _ hv))
      exact ⟨expandQuery vs params ++ out, by simp [expandTemplate, hout, Except.map]⟩

/-- The path-variable keys of a scroll builder are present in the
parameter map no matter the builder state, the optional keys exactly
when set. -/
theorem scrollParams_lookup (s : ScrollService) :
    s.params.lookup "pin" = some (GoValue.str s.pin)
    ∧ s.params.lookup "area" = some (GoValue.str s.area)
    ∧ s.params.lookup "pageToken" = s.pageToken.map GoValue.str
    ∧ s.params.lookup "mode" = s.mode.map GoValue.str
    ∧ s.params.lookup "version" = s.version.map GoValue.int := by
  obtain ⟨pin, area, mode, pageToken, version⟩ := s
  cases mode <;> cases pageToken <;> cases version <;>
    simp [ScrollService.params, List.lookup]

/-- The availability-delete builder's keys, by builder state. -/
theorem availabilitiesDeleteParams_lookup (d : AvailabilitiesDeleteService) :
    d.params.lookup "spn" = some (GoValue.str d.spn)
    ∧ d.params.lookup "region" = d.region.map GoValue.str
    ∧ d.params.lookup "zipCode" = d.zipCode.map GoValue.str := by
  obtain ⟨spn, region, zipCode⟩ := d
  cases region <;> cases zipCode <;>
    simp [AvailabilitiesDeleteService.params, List.lookup]

set_option maxRecDepth 10000 in
/-- Claim C10: every builder's `Do` inserts the path variables of its
template unconditionally (as `""` when never set) and the optional query
variables only when set, so expansion of a builder-constructed parameter
map never fails with a missing required variable — an unset identifier
instead yields a URL with an empty path segment.  Shown for
`ScrollService`, `UpdateService` and the availabilities
`DeleteService`. -/
theorem builderParams_neverMissRequired :
    (∀ s : ScrollService,
      s.params.lookup "pin" = some (GoValue.str s.pin)
      ∧ s.params.lookup "area" = some (GoValue.str s.area)
      ∧ s.params.lookup "pageToken" = s.pageToken.map GoValue.str
      ∧ s.params.lookup "mode" = s.mode.map GoValue.str
      ∧ s.params.lookup "version" = s.version.map GoValue.int
      ∧ ∃ out, Expand scrollPath s.params = .ok out)
    ∧ (∀ u : UpdateService,
      u.params.lookup "pin" = some (GoValue.str u.pin)
      ∧ u.params.lookup "area" = some (GoValue.str u.area)
      ∧ u.params.lookup "spn" = some (GoValue.str u.spn)
      ∧ ∃ out, Expand updatePath u.params = .ok out)
    ∧ (∀ d : AvailabilitiesDeleteService,
      d.params.lookup "spn" = some (GoValue.str d.spn)
      ∧ d.params.lookup "region" = d.region.map GoValue.str
      ∧ d.params.lookup "zipCode" = d.zipCode.map GoValue.str
      ∧ ∃ out, Expand availabilitiesDeletePath d.params = .ok out)
    ∧ Expand scrollPath NewScrollService.params = .ok "/catalogs///products/scroll"
    ∧ Expand updatePath NewUpdateService.params = .ok "/catalogs///products/"
    ∧ Expand availabilitiesDeletePath NewAvailabilitiesDeleteService.params =
        .ok "/api/v2/products//availabilities" := by
  refine ⟨?_, ?_, ?_, rfl, rfl, rfl⟩
  · intro s
    obtain ⟨hpin, harea, hpt, hmode, hver⟩ := scrollParams_lookup s
    refine ⟨hpin, harea, hpt, hmode, hver, ?_⟩
    have hparse : parse scrollPath =
        .ok [Segment.lit "/catalogs/", Segment.pathVar "pin", Segment.lit "/",
             Segment.pathVar "area", Segment.lit "/products/scroll",
             Segment.query ["pageToken", "mode", "version"]] := rfl
    obtain ⟨out, hout⟩ := expandTemplate_ok_of_present
      [Segment.lit "/catalogs/", Segment.pathVar "pin", Segment.lit "/",
       Segment.pathVar "area", Segment.lit "/products/scroll",
       Segment.query ["pageToken", "mode", "version"]] s.params (by
      intro v hv
      simp only [List.mem_cons, List.not_mem_nil, or_false] at hv
      rcases hv with h | h | h | h | h | h <;> simp_all [hpin, harea])
    exact ⟨out, by simp [Expand, hparse, hout]⟩
  · intro u
    have hlook : u.params.lookup "pin" = some (GoValue.str u.pin)
        ∧ u.params.lookup "area" = some (GoValue.str u.area)
        ∧ u.params.lookup "spn" = some (GoValue.str u.spn) := by
      simp [UpdateService.params, List.lookup]
    obtain ⟨hpin, harea, hspn⟩ := hlook
    refine ⟨hpin, harea, hspn, ?_⟩
    have hparse : parse updatePath =
        .ok [Segment.lit "/catalogs/", Segment.pathVar "pin", Segment.lit "/",
             Segment.pathVar "area", Segment.lit "/products/",
             Segment.pathVar "spn"] := rfl
    obtain ⟨out, hout⟩ := expandTemplate_ok_of_present
      [Segment.lit "/catalogs/", Segment.pathVar "pin", Segment.lit "/",
       Segment.pathVar "area", Segment.lit "/products/",
       Segment.pathVar "spn"] u.params (by
      intro v hv
      simp only [List.mem_cons, List.not_mem_nil, or_false] at hv
      rcases hv with h | h | h | h | h | h <;> simp_all [hpin, harea, hspn])
    exact ⟨out, by simp [Expand, hparse, hout]⟩
  · intro d
    obtain ⟨hspn, hregion, hzip⟩ := availabilitiesDeleteParams_lookup d
    refine ⟨hspn, hregion, hzip, ?_⟩
    have hparse : parse availabilitiesDeletePath =
        .ok [Segment.lit "/api/v2/products/", Segment.pathVar "spn",
             Segment.lit "/availabilities", Segment.query ["region", "zipCode"]] := rfl
    obtain ⟨out, hout⟩ := expandTemplate_ok_of_present
      [Segment.lit "/api/v2/products/", Segment.pathVar "spn",
       Segment.lit "/availabilities", Segment.query ["region", "zipCode"]] d.params (by
      intro v hv
      simp only [List.mem_cons, List.not_mem_nil, or_false] at hv
      rcases hv with h | h | h | h <;> simp_all [hspn])
    exact ⟨out, by simp [Expand, hparse, hout]⟩

/-- A JSON value as produced by the external `encoding/json` marshaller.
Numbers carry their marshalled wire text (float64 formatting is the
codec's concern, not this client's). -/
inductive Json where
  | null
  | str (s : String)
  | num (wire : String)
  | bool (b : Bool)
  | arr (elems : List Json)
  | obj (fields : List (String × Json))

/-- The marshalled wire text of a Go `float64` value. -/
structure Float64 where
  wire : String
deriving DecidableEq, Repr

/-- Lower-case hexadecimal digit. -/
def hexLower (n : Nat) : Char :=
  "0123456789abcdef".data.getD n '0'

/-- The double-quote character. -/
def quoteChar : Char := Char.ofNat 34

/-- The backslash character. -/
def backslashChar : Char := Char.ofNat 92

/-- One character of a JSON string, escaped per `encoding/json` defaults:
quote and backslash escaped, newline/carriage-return/tab as two-character
escapes, other control characters as a four-digit unicode escape, the
HTML-unsafe characters (less-than, greater-than, ampersand) and
U+2028/U+2029 likewise as unicode escapes. -/
def escapeChar (c : Char) : String :=
  if c = quoteChar then String.mk [backslashChar, quoteChar]
  else if c = backslashChar then String.mk [backslashChar, backslashChar]
  else if c = '\n' then String.mk [backslashChar, 'n']
  else if c = '\r' then String.mk [backslashChar, 'r']
  else if c = '\t' then String.mk [backslashChar, 't']
  else if c = '<' then String.mk [backslashChar, 'u', '0', '0', '3', 'c']
  else if c = '>' then String.mk [backslashChar, 'u', '0', '0', '3', 'e']
  else if c = '&' then String.mk [backslashChar, 'u', '0', '0', '2', '6']
  else if c.toNat < 32 then
    String.mk [backslashChar, 'u', '0', '0', hexLower (c.toNat / 16), hexLower (c.toNat % 16)]
  else if c.toNat = 8232 then String.mk [backslashChar, 'u', '2', '0', '2', '8']
  else if c.toNat = 8233 then String.mk [backslashChar, 'u', '2', '0', '2', '9']
  else String.singleton c

/-- A JSON string literal: the escaped characters between double
quotes. -/
def escapeString (s : String) : String :=
  String.singleton quoteChar
    ++ s.data.foldl (fun acc c => acc ++ escapeChar c) ""
    ++ String.singleton quoteChar

/-- Compact (no whitespace) JSON rendering as `encoding/json` writes it,
with an explicit recursion budget making the function total by
construction (`encoding/json` has no budget; any budget exceeding the
value's nesting depth renders it in full, and the rendering theorems
below hold for every sufficient budget). -/
def renderJsonFuel : Nat → Json → String
  | 0, _ => ""
  | fuel + 1, j =>
    match j with
    | .null => "null"
    | .str s => escapeString s
    | .num w => w
    | .bool b => if b then "true" else "false"
    | .arr xs => "[" ++ String.intercalate "," (xs.map (renderJsonFuel fuel)) ++ "]"
    | .obj fs =>
      "\x7b" ++
        String.intercalate ","
          (fs.map (fun kv => escapeString kv.1 ++ ":" ++ renderJsonFuel fuel kv.2)) ++
      "\x7d"

/-- `omitempty` on a pointer-typed field: a nil pointer is omitted, any
non-nil pointer is emitted under its key — even a pointer to the zero
value, which is what makes "explicitly cleared" distinct from "unset". -/
def omitemptyPtr (key : String) : Option Json → List (String × Json)
  | none => []
  | some j => [(key, j)]

/-- `omitempty` on a slice-typed field: nil and empty slices are
omitted, a non-empty slice is emitted as a JSON array under its key. -/
def omitemptySlice (key : String) (elems : List Json) : List (String × Json) :=
  if elems.isEmpty then [] else [(key, Json.arr elems)]

/-- The spec-side inclusion marker: a key is listed exactly when its
field is set or explicitly cleared. -/
def keyIfSet (key : String) (present : Bool) : List String :=
  if present then [key] else []

/-- Embeds `products.UpdateProduct` (products.go): every field is
pointer-typed (tri-state: nil pointer = unset, pointer to the zero value
= explicitly cleared, pointer to a value = set) or slice-typed (two-state
in Go: nil and empty slices are indistinguishable on the wire), each
tagged `json:"<key>,omitempty"`.  A `*float64` value is carried as its
marshalled wire text (`Float64`), and the marshalled form of a non-nil
nested entity (`*Availability`, `*Intrastat`) or of a slice element is
carried as an opaque `Json` value, since the external codec produces
those and only the presence of the containing key depends on this
struct's tags. -/
structure UpdateProduct where
  Asin : Option String
  AutoConfigure : Option Bool
  Availability : Option (List (String × Json))
  Blobs : List Json
  BoostFactor : Option Float64
  Bpn : Option String
  CatalogManaged : Option Bool
  Categories : List String
  Conditions : List Json
  Contract : Option String
  ContractItem : Option String
  ConversionDenumerator : Option Float64
  ConversionNumerator : Option Float64
  Country : Option String
  ContentUnit : Option String
  CuPerOu : Option Float64
  Currency : Option String
  CustField1 : Option String
  CustField2 : Option String
  CustField3 : Option String
  CustField4 : Option String
  CustField5 : Option String
  CustFields : List Json
  CustomField10 : Option String
  CustomField11 : Option String
  CustomField12 : Option String
  CustomField13 : Option String
  CustomField14 : Option String
  CustomField15 : Option String
  CustomField16 : Option String
  CustomField17 : Option String
  CustomField18 : Option String
  CustomField19 : Option String
  CustomField20 : Option String
  CustomField21 : Option String
  CustomField22 : Option String
  CustomField23 : Option String
  CustomField24 : Option String
  CustomField25 : Option String
  CustomField26 : Option String
  CustomField27 : Option String
  CustomField28 : Option String
  CustomField29 : Option String
  CustomField30 : Option String
  CustomField6 : Option String
  CustomField7 : Option String
  CustomField8 : Option String
  CustomField9 : Option String
  Datasheet : Option String
  Description : Option String
  Eclasses : List Json
  ErpGroupSupplier : Option String
  Excluded : Option Bool
  ExtCategory : Option String
  ExtCategoryID : Option String
  ExtConfigForm : Option String
  ExtConfigService : Option String
  ExtProductID : Option String
  ExtSchemaType : Option String
  Features : List Json
  GlAccount : Option String
  Gtin : Option String
  Hazmats : List Json
  Image : Option String
  Incomplete : Option Bool
  Intrastat : Option (List (String × Json))
  IsPassword : Option Bool
  KeepPrice : Option Bool
  Keywords : List String
  Leadtime : Option Float64
  ListPrice : Option Float64
  Manufactcode : Option String
  Manufacturer : Option String
  Matgroup : Option String
  Mpn : Option String
  MultiSupplierID : Option String
  MultiSupplierName : Option String
  Name : Option String
  NeedsGoodsReceipt : Option Bool
  NfBasePrice : Option Float64
  NfBasePriceQuantity : Option Float64
  NfCndID : Option String
  NfScale : Option Float64
  NfScaleQuantity : Option Float64
  Orderable : Option Bool
  OrderUnit : Option String
  Price : Option Float64
  PriceFormula : Option String
  PriceQty : Option Float64
  QuantityInterval : Option Float64
  QuantityMax : Option Float64
  QuantityMin : Option Float64
  Rateable : Option Bool
  RateableOnlyIfOrdered : Option Bool
  References : List Json
  Safetysheet : Option String
  ScalePrices : List Json
  Service : Option Bool
  TaxCode : Option String
  TaxRate : Option Float64
  Thumbnail : Option String
  Unspscs : List Json
  Visible : Option Bool

/- One definition per struct field: the key/value contribution the field
makes to the marshalled JSON object under its `json:"<key>,omitempty"`
tag (kept as separate definitions, one per field, in declaration
order). -/

def jsonFieldAsin (p : UpdateProduct) : List (String × Json) := omitemptyPtr "asin" (p.Asin.map Json.str)

def jsonFieldAutoConfigure (p : UpdateProduct) : List (String × Json) := omitemptyPtr "autoConfigure" (p.AutoConfigure.map Json.bool)

def jsonFieldAvailability (p : UpdateProduct) : List (String × Json) := omitemptyPtr "availability" (p.Availability.map Json.obj)

def jsonFieldBlobs (p : UpdateProduct) : List (String × Json) := omitemptySlice "blobs" p.Blobs

def jsonFieldBoostFactor (p : UpdateProduct) : List (String × Json) := omitemptyPtr "boostFactor" (p.BoostFactor.map (fun f => Json.num f.wire))

def jsonFieldBpn (p : UpdateProduct) : List (String × Json) := omitemptyPtr "bpn" (p.Bpn.map Json.str)

def jsonFieldCatalogManaged (p : UpdateProduct) : List (String × Json) := omitemptyPtr "catalogManaged" (p.CatalogManaged.map Json.bool)

def jsonFieldCategories (p : UpdateProduct) : List (String × Json) := omitemptySlice "categories" (p.Categories.map Json.str)

def jsonFieldConditions (p : UpdateProduct) : List (String × Json) := omitemptySlice "conditions" p.Conditions

def jsonFieldContract (p : UpdateProduct) : List (String × Json) := omitemptyPtr "contract" (p.Contract.map Json.str)

def jsonFieldContractItem (p : UpdateProduct) : List (String × Json) := omitemptyPtr "contractItem" (p.ContractItem.map Json.str)

def jsonFieldConversionDenumerator (p : UpdateProduct) : List (String × Json) := omitemptyPtr "conversionDenumerator" (p.ConversionDenumerator.map (fun f => Json.num f.wire))

def jsonFieldConversionNumerator (p : UpdateProduct) : List (String × Json) := omitemptyPtr "conversionNumerator" (p.ConversionNumerator.map (fun f => Json.num f.wire))

def jsonFieldCountry (p : UpdateProduct) : List (String × Json) := omitemptyPtr "country" (p.Country.map Json.str)

def jsonFieldContentUnit (p : UpdateProduct) : List (String × Json) := omitemptyPtr "cu" (p.ContentUnit.map Json.str)

def jsonFieldCuPerOu (p : UpdateProduct) : List (String × Json) := omitemptyPtr "cuPerOu" (p.CuPerOu.map (fun f => Json.num f.wire))

def jsonFieldCurrency (p : UpdateProduct) : List (String × Json) := omitemptyPtr "currency" (p.Currency.map Json.str)

def jsonFieldCustField1 (p : UpdateProduct) : List (String × Json) := omitemptyPtr "custField1" (p.CustField1.map Json.str)

def jsonFieldCustField2 (p : UpdateProduct) : List (String × Json) := omitemptyPtr "custField2" (p.CustField2.map Json.str)

def jsonFieldCustField3 (p : UpdateProduct) : List (String × Json) := omitemptyPtr "custField3" (p.CustField3.map Json.str)

def jsonFieldCustField4 (p : UpdateProduct) : List (String × Json) := omitemptyPtr "custField4" (p.CustField4.map Json.str)

def jsonFieldCustField5 (p : UpdateProduct) : List (String × Json) := omitemptyPtr "custField5" (p.CustField5.map Json.str)

def jsonFieldCustFields (p : UpdateProduct) : List (String × Json) := omitemptySlice "custFields" p.CustFields

def jsonFieldCustomField10 (p : UpdateProduct) : List (String × Json) := omitemptyPtr "customField10" (p.CustomField10.map Json.str)

def jsonFieldCustomField11 (p : UpdateProduct) : List (String × Json) := omitemptyPtr "customField11" (p.CustomField11.map Json.str)

def jsonFieldCustomField12 (p : UpdateProduct) : List (String × Json) := omitemptyPtr "customField12" (p.CustomField12.map Json.str)

def jsonFieldCustomField13 (p : UpdateProduct) : List (String × Json) := omitemptyPtr "customField13" (p.CustomField13.map Json.str)

def jsonFieldCustomField14 (p : UpdateProduct) : List (String × Json) := omitemptyPtr "customField14" (p.CustomField14.map Json.str)

def jsonFieldCustomField15 (p : UpdateProduct) : List (String × Json) := omitemptyPtr "customField15" (p.CustomField15.map Json.str)

def jsonFieldCustomField16 (p : UpdateProduct) : List (String × Json) := omitemptyPtr "customField16" (p.CustomField16.map Json.str)

def jsonFieldCustomField17 (p : UpdateProduct) : List (String × Json) := omitemptyPtr "customField17" (p.CustomField17.map Json.str)

def jsonFieldCustomField18 (p : UpdateProduct) : List (String × Json) := omitemptyPtr "customField18" (p.CustomField18.map Json.str)

def jsonFieldCustomField19 (p : UpdateProduct) : List (String × Json) := omitemptyPtr "customField19" (p.CustomField19.map Json.str)

def jsonFieldCustomField20 (p : UpdateProduct) : List (String × Json) := omitemptyPtr "customField20" (p.CustomField20.map Json.str)

def jsonFieldCustomField21 (p : UpdateProduct) : List (String × Json) := omitemptyPtr "customField21" (p.CustomField21.map Json.str)

def jsonFieldCustomField22 (p : UpdateProduct) : List (String × Json) := omitemptyPtr "customField22" (p.CustomField22.map Json.str)

def jsonFieldCustomField23 (p : UpdateProduct) : List (String × Json) := omitemptyPtr "customField23" (p.CustomField23.map Json.str)

def jsonFieldCustomField24 (p : UpdateProduct) : List (String × Json) := omitemptyPtr "customField24" (p.CustomField24.map Json.str)

def jsonFieldCustomField25 (p : UpdateProduct) : List (String × Json) := omitemptyPtr "customField25" (p.CustomField25.map Json.str)

def jsonFieldCustomField26 (p : UpdateProduct) : List (String × Json) := omitemptyPtr "customField26" (p.CustomField26.map Json.str)

def jsonFieldCustomField27 (p : UpdateProduct) : List (String × Json) := omitemptyPtr "customField27" (p.CustomField27.map Json.str)

def jsonFieldCustomField28 (p : UpdateProduct) : List (String × Json) := omitemptyPtr "customField28" (p.CustomField28.map Json.str)

def jsonFieldCustomField29 (p : UpdateProduct) : List (String × Json) := omitemptyPtr "customField29" (p.CustomField29.map Json.str)

def jsonFieldCustomField30 (p : UpdateProduct) : List (String × Json) := omitemptyPtr "customField30" (p.CustomField30.map Json.str)

def jsonFieldCustomField6 (p : UpdateProduct) : List (String × Json) := omitemptyPtr "customField6" (p.CustomField6.map Json.str)

def jsonFieldCustomField7 (p : UpdateProduct) : List (String × Json) := omitemptyPtr "customField7" (p.CustomField7.map Json.str)

def jsonFieldCustomField8 (p : UpdateProduct) : List (String × Json) := omitemptyPtr "customField8" (p.CustomField8.map Json.str)

def jsonFieldCustomField9 (p : UpdateProduct) : List (String × Json) := omitemptyPtr "customField9" (p.CustomField9.map Json.str)

def jsonFieldDatasheet (p : UpdateProduct) : List (String × Json) := omitemptyPtr "datasheet" (p.Datasheet.map Json.str)

def jsonFieldDescription (p : UpdateProduct) : List (String × Json) := omitemptyPtr "description" (p.Description.map Json.str)

def jsonFieldEclasses (p : UpdateProduct) : List (String × Json) := omitemptySlice "eclasses" p.Eclasses

def jsonFieldErpGroupSupplier (p : UpdateProduct) : List (String × Json) := omitemptyPtr "erpGroupSupplier" (p.ErpGroupSupplier.map Json.str)

def jsonFieldExcluded (p : UpdateProduct) : List (String × Json) := omitemptyPtr "excluded" (p.Excluded.map Json.bool)

def jsonFieldExtCategory (p : UpdateProduct) : List (String × Json) := omitemptyPtr "extCategory" (p.ExtCategory.map Json.str)

def jsonFieldExtCategoryID (p : UpdateProduct) : List (String × Json) := omitemptyPtr "extCategoryId" (p.ExtCategoryID.map Json.str)

def jsonFieldExtConfigForm (p : UpdateProduct) : List (String × Json) := omitemptyPtr "extConfigForm" (p.ExtConfigForm.map Json.str)

def jsonFieldExtConfigService (p : UpdateProduct) : List (String × Json) := omitemptyPtr "extConfigService" (p.ExtConfigService.map Json.str)

def jsonFieldExtProductID (p : UpdateProduct) : List (String × Json) := omitemptyPtr "extProductId" (p.ExtProductID.map Json.str)

def jsonFieldExtSchemaType (p : UpdateProduct) : List (String × Json) := omitemptyPtr "extSchemaType" (p.ExtSchemaType.map Json.str)

def jsonFieldFeatures (p : UpdateProduct) : List (String × Json) := omitemptySlice "features" p.Features

def jsonFieldGlAccount (p : UpdateProduct) : List (String × Json) := omitemptyPtr "glAccount" (p.GlAccount.map Json.str)

def jsonFieldGtin (p : UpdateProduct) : List (String × Json) := omitemptyPtr "gtin" (p.Gtin.map Json.str)

def jsonFieldHazmats (p : UpdateProduct) : List (String × Json) := omitemptySlice "hazmats" p.Hazmats

def jsonFieldImage (p : UpdateProduct) : List (String × Json) := omitemptyPtr "image" (p.Image.map Json.str)

def jsonFieldIncomplete (p : UpdateProduct) : List (String × Json) := omitemptyPtr "incomplete" (p.Incomplete.map Json.bool)

def jsonFieldIntrastat (p : UpdateProduct) : List (String × Json) := omitemptyPtr "intrastat" (p.Intrastat.map Json.obj)

def jsonFieldIsPassword (p : UpdateProduct) : List (String × Json) := omitemptyPtr "isPassword" (p.IsPassword.map Json.bool)

def jsonFieldKeepPrice (p : UpdateProduct) : List (String × Json) := omitemptyPtr "keepPrice" (p.KeepPrice.map Json.bool)

def jsonFieldKeywords (p : UpdateProduct) : List (String × Json) := omitemptySlice "keywords" (p.Keywords.map Json.str)

def jsonFieldLeadtime (p : UpdateProduct) : List (String × Json) := omitemptyPtr "leadtime" (p.Leadtime.map (fun f => Json.num f.wire))

def jsonFieldListPrice (p : UpdateProduct) : List (String × Json) := omitemptyPtr "listPrice" (p.ListPrice.map (fun f => Json.num f.wire))

def jsonFieldManufactcode (p : UpdateProduct) : List (String × Json) := omitemptyPtr "manufactcode" (p.Manufactcode.map Json.str)

def jsonFieldManufacturer (p : UpdateProduct) : List (String × Json) := omitemptyPtr "manufacturer" (p.Manufacturer.map Json.str)

def jsonFieldMatgroup (p : UpdateProduct) : List (String × Json) := omitemptyPtr "matgroup" (p.Matgroup.map Json.str)

def jsonFieldMpn (p : UpdateProduct) : List (String × Json) := omitemptyPtr "mpn" (p.Mpn.map Json.str)

def jsonFieldMultiSupplierID (p : UpdateProduct) : List (String × Json) := omitemptyPtr "multiSupplierId" (p.MultiSupplierID.map Json.str)

def jsonFieldMultiSupplierName (p : UpdateProduct) : List (String × Json) := omitemptyPtr "multiSupplierName" (p.MultiSupplierName.map Json.str)

def jsonFieldName (p : UpdateProduct) : List (String × Json) := omitemptyPtr "name" (p.Name.map Json.str)

def jsonFieldNeedsGoodsReceipt (p : UpdateProduct) : List (String × Json) := omitemptyPtr "needsGoodsReceipt" (p.NeedsGoodsReceipt.map Json.bool)

def jsonFieldNfBasePrice (p : UpdateProduct) : List (String × Json) := omitemptyPtr "nfBasePrice" (p.NfBasePrice.map (fun f => Json.num f.wire))

def jsonFieldNfBasePriceQuantity (p : UpdateProduct) : List (String × Json) := omitemptyPtr "nfBasePriceQuantity" (p.NfBasePriceQuantity.map (fun f => Json.num f.wire))

def jsonFieldNfCndID (p : UpdateProduct) : List (String × Json) := omitemptyPtr "nfCndId" (p.NfCndID.map Json.str)

def jsonFieldNfScale (p : UpdateProduct) : List (String × Json) := omitemptyPtr "nfScale" (p.NfScale.map (fun f => Json.num f.wire))

def jsonFieldNfScaleQuantity (p : UpdateProduct) : List (String × Json) := omitemptyPtr "nfScaleQuantity" (p.NfScaleQuantity.map (fun f => Json.num f.wire))

def jsonFieldOrderable (p : UpdateProduct) : List (String × Json) := omitemptyPtr "orderable" (p.Orderable.map Json.bool)

def jsonFieldOrderUnit (p : UpdateProduct) : List (String × Json) := omitemptyPtr "ou" (p.OrderUnit.map Json.str)

def jsonFieldPrice (p : UpdateProduct) : List (String × Json) := omitemptyPtr "price" (p.Price.map (fun f => Json.num f.wire))

def jsonFieldPriceFormula (p : UpdateProduct) : List (String × Json) := omitemptyPtr "priceFormula" (p.PriceFormula.map Json.str)

def jsonFieldPriceQty (p : UpdateProduct) : List (String × Json) := omitemptyPtr "priceQty" (p.PriceQty.map (fun f => Json.num f.wire))

def jsonFieldQuantityInterval (p : UpdateProduct) : List (String × Json) := omitemptyPtr "quantityInterval" (p.QuantityInterval.map (fun f => Json.num f.wire))

def jsonFieldQuantityMax (p : UpdateProduct) : List (String × Json) := omitemptyPtr "quantityMax" (p.QuantityMax.map (fun f => Json.num f.wire))

def jsonFieldQuantityMin (p : UpdateProduct) : List (String × Json) := omitemptyPtr "quantityMin" (p.QuantityMin.map (fun f => Json.num f.wire))

def jsonFieldRateable (p : UpdateProduct) : List (String × Json) := omitemptyPtr "rateable" (p.Rateable.map Json.bool)

def jsonFieldRateableOnlyIfOrdered (p : UpdateProduct) : List (String × Json) := omitemptyPtr "rateableOnlyIfOrdered" (p.RateableOnlyIfOrdered.map Json.bool)

def jsonFieldReferences (p : UpdateProduct) : List (String × Json) := omitemptySlice "references" p.References

def jsonFieldSafetysheet (p : UpdateProduct) : List (String × Json) := omitemptyPtr "safetysheet" (p.Safetysheet.map Json.str)

def jsonFieldScalePrices (p : UpdateProduct) : List (String × Json) := omitemptySlice "scalePrices" p.ScalePrices

def jsonFieldService (p : UpdateProduct) : List (String × Json) := omitemptyPtr "service" (p.Service.map Json.bool)

def jsonFieldTaxCode (p : UpdateProduct) : List (String × Json) := omitemptyPtr "taxCode" (p.TaxCode.map Json.str)

def jsonFieldTaxRate (p : UpdateProduct) : List (String × Json) := omitemptyPtr "taxRate" (p.TaxRate.map (fun f => Json.num f.wire))

def jsonFieldThumbnail (p : UpdateProduct) : List (String × Json) := omitemptyPtr "thumbnail" (p.Thumbnail.map Json.str)

def jsonFieldUnspscs (p : UpdateProduct) : List (String × Json) := omitemptySlice "unspscs" p.Unspscs

def jsonFieldVisible (p : UpdateProduct) : List (String × Json) := omitemptyPtr "visible" (p.Visible.map Json.bool)

/-- Embeds the `encoding/json` marshalling of `UpdateProduct` under its
struct tags: the fields contribute, in declaration order, under their
JSON keys, with `omitempty` semantics per field kind. -/
def UpdateProduct.marshal (p : UpdateProduct) : List (String × Json) :=
  List.flatten [
    jsonFieldAsin p,
    jsonFieldAutoConfigure p,
    jsonFieldAvailability p,
    jsonFieldBlobs p,
    jsonFieldBoostFactor p,
    jsonFieldBpn p,
    jsonFieldCatalogManaged p,
    jsonFieldCategories p,
    jsonFieldConditions p,
    jsonFieldContract p,
    jsonFieldContractItem p,
    jsonFieldConversionDenumerator p,
    jsonFieldConversionNumerator p,
    jsonFieldCountry p,
    jsonFieldContentUnit p,
    jsonFieldCuPerOu p,
    jsonFieldCurrency p,
    jsonFieldCustField1 p,
    jsonFieldCustField2 p,
    jsonFieldCustField3 p,
    jsonFieldCustField4 p,
    jsonFieldCustField5 p,
    jsonFieldCustFields p,
    jsonFieldCustomField10 p,
    jsonFieldCustomField11 p,
    jsonFieldCustomField12 p,
    jsonFieldCustomField13 p,
    jsonFieldCustomField14 p,
    jsonFieldCustomField15 p,
    jsonFieldCustomField16 p,
    jsonFieldCustomField17 p,
    jsonFieldCustomField18 p,
    jsonFieldCustomField19 p,
    jsonFieldCustomField20 p,
    jsonFieldCustomField21 p,
    jsonFieldCustomField22 p,
    jsonFieldCustomField23 p,
    jsonFieldCustomField24 p,
    jsonFieldCustomField25 p,
    jsonFieldCustomField26 p,
    jsonFieldCustomField27 p,
    jsonFieldCustomField28 p,
    jsonFieldCustomField29 p,
    jsonFieldCustomField30 p,
    jsonFieldCustomField6 p,
    jsonFieldCustomField7 p,
    jsonFieldCustomField8 p,
    jsonFieldCustomField9 p,
    jsonFieldDatasheet p,
    jsonFieldDescription p,
    jsonFieldEclasses p,
    jsonFieldErpGroupSupplier p,
    jsonFieldExcluded p,
    jsonFieldExtCategory p,
    jsonFieldExtCategoryID p,
    jsonFieldExtConfigForm p,
    jsonFieldExtConfigService p,
    jsonFieldExtProductID p,
    jsonFieldExtSchemaType p,
    jsonFieldFeatures p,
    jsonFieldGlAccount p,
    jsonFieldGtin p,
    jsonFieldHazmats p,
    jsonFieldImage p,
    jsonFieldIncomplete p,
    jsonFieldIntrastat p,
    jsonFieldIsPassword p,
    jsonFieldKeepPrice p,
    jsonFieldKeywords p,
    jsonFieldLeadtime p,
    jsonFieldListPrice p,
    jsonFieldManufactcode p,
    jsonFieldManufacturer p,
    jsonFieldMatgroup p,
    jsonFieldMpn p,
    jsonFieldMultiSupplierID p,
    jsonFieldMultiSupplierName p,
    jsonFieldName p,
    jsonFieldNeedsGoodsReceipt p,
    jsonFieldNfBasePrice p,
    jsonFieldNfBasePriceQuantity p,
    jsonFieldNfCndID p,
    jsonFieldNfScale p,
    jsonFieldNfScaleQuantity p,
    jsonFieldOrderable p,
    jsonFieldOrderUnit p,
    jsonFieldPrice p,
    jsonFieldPriceFormula p,
    jsonFieldPriceQty p,
    jsonFieldQuantityInterval p,
    jsonFieldQuantityMax p,
    jsonFieldQuantityMin p,
    jsonFieldRateable p,
    jsonFieldRateableOnlyIfOrdered p,
    jsonFieldReferences p,
    jsonFieldSafetysheet p,
    jsonFieldScalePrices p,
    jsonFieldService p,
    jsonFieldTaxCode p,
    jsonFieldTaxRate p,
    jsonFieldThumbnail p,
    jsonFieldUnspscs p,
    jsonFieldVisible p]

/-- The spec-side description of the serialized keys: "a JSON object
containing exactly the keys whose field is *set* or *explicitly
cleared*", in declaration order.  For a pointer-typed (tri-state) field,
set-or-cleared is exactly "the pointer is non-nil"; a slice-typed field
counts as set exactly when non-empty (Go marshals nil and empty slices
identically as absent). -/
def UpdateProduct.setOrClearedKeys (p : UpdateProduct) : List String :=
  List.flatten [
    keyIfSet "asin" p.Asin.isSome,
    keyIfSet "autoConfigure" p.AutoConfigure.isSome,
    keyIfSet "availability" p.Availability.isSome,
    keyIfSet "blobs" (!p.Blobs.isEmpty),
    keyIfSet "boostFactor" p.BoostFactor.isSome,
    keyIfSet "bpn" p.Bpn.isSome,
    keyIfSet "catalogManaged" p.CatalogManaged.isSome,
    keyIfSet "categories" (!p.Categories.isEmpty),
    keyIfSet "conditions" (!p.Conditions.isEmpty),
    keyIfSet "contract" p.Contract.isSome,
    keyIfSet "contractItem" p.ContractItem.isSome,
    keyIfSet "conversionDenumerator" p.ConversionDenumerator.isSome,
    keyIfSet "conversionNumerator" p.ConversionNumerator.isSome,
    keyIfSet "country" p.Country.isSome,
    keyIfSet "cu" p.ContentUnit.isSome,
    keyIfSet "cuPerOu" p.CuPerOu.isSome,
    keyIfSet "currency" p.Currency.isSome,
    keyIfSet "custField1" p.CustField1.isSome,
    keyIfSet "custField2" p.CustField2.isSome,
    keyIfSet "custField3" p.CustField3.isSome,
    keyIfSet "custField4" p.CustField4.isSome,
    keyIfSet "custField5" p.CustField5.isSome,
    keyIfSet "custFields" (!p.CustFields.isEmpty),
    keyIfSet "customField10" p.CustomField10.isSome,
    keyIfSet "customField11" p.CustomField11.isSome,
    keyIfSet "customField12" p.CustomField12.isSome,
    keyIfSet "customField13" p.CustomField13.isSome,
    keyIfSet "customField14" p.CustomField14.isSome,
    keyIfSet "customField15" p.CustomField15.isSome,
    keyIfSet "customField16" p.CustomField16.isSome,
    keyIfSet "customField17" p.CustomField17.isSome,
    keyIfSet "customField18" p.CustomField18.isSome,
    keyIfSet "customField19" p.CustomField19.isSome,
    keyIfSet "customField20" p.CustomField20.isSome,
    keyIfSet "customField21" p.CustomField21.isSome,
    keyIfSet "customField22" p.CustomField22.isSome,
    keyIfSet "customField23" p.CustomField23.isSome,
    keyIfSet "customField24" p.CustomField24.isSome,
    keyIfSet "customField25" p.CustomField25.isSome,
    keyIfSet "customField26" p.CustomField26.isSome,
    keyIfSet "customField27" p.CustomField27.isSome,
    keyIfSet "customField28" p.CustomField28.isSome,
    keyIfSet "customField29" p.CustomField29.isSome,
    keyIfSet "customField30" p.CustomField30.isSome,
    keyIfSet "customField6" p.CustomField6.isSome,
    keyIfSet "customField7" p.CustomField7.isSome,
    keyIfSet "customField8" p.CustomField8.isSome,
    keyIfSet "customField9" p.CustomField9.isSome,
    keyIfSet "datasheet" p.Datasheet.isSome,
    keyIfSet "description" p.Description.isSome,
    keyIfSet "eclasses" (!p.Eclasses.isEmpty),
    keyIfSet "erpGroupSupplier" p.ErpGroupSupplier.isSome,
    keyIfSet "excluded" p.Excluded.isSome,
    keyIfSet "extCategory" p.ExtCategory.isSome,
    keyIfSet "extCategoryId" p.ExtCategoryID.isSome,
    keyIfSet "extConfigForm" p.ExtConfigForm.isSome,
    keyIfSet "extConfigService" p.ExtConfigService.isSome,
    keyIfSet "extProductId" p.ExtProductID.isSome,
    keyIfSet "extSchemaType" p.ExtSchemaType.isSome,
    keyIfSet "features" (!p.Features.isEmpty),
    keyIfSet "glAccount" p.GlAccount.isSome,
    keyIfSet "gtin" p.Gtin.isSome,
    keyIfSet "hazmats" (!p.Hazmats.isEmpty),
    keyIfSet "image" p.Image.isSome,
    keyIfSet "incomplete" p.Incomplete.isSome,
    keyIfSet "intrastat" p.Intrastat.isSome,
    keyIfSet "isPassword" p.IsPassword.isSome,
    keyIfSet "keepPrice" p.KeepPrice.isSome,
    keyIfSet "keywords" (!p.Keywords.isEmpty),
    keyIfSet "leadtime" p.Leadtime.isSome,
    keyIfSet "listPrice" p.ListPrice.isSome,
    keyIfSet "manufactcode" p.Manufactcode.isSome,
    keyIfSet "manufacturer" p.Manufacturer.isSome,
    keyIfSet "matgroup" p.Matgroup.isSome,
    keyIfSet "mpn" p.Mpn.isSome,
    keyIfSet "multiSupplierId" p.MultiSupplierID.isSome,
    keyIfSet "multiSupplierName" p.MultiSupplierName.isSome,
    keyIfSet "name" p.Name.isSome,
    keyIfSet "needsGoodsReceipt" p.NeedsGoodsReceipt.isSome,
    keyIfSet "nfBasePrice" p.NfBasePrice.isSome,
    keyIfSet "nfBasePriceQuantity" p.NfBasePriceQuantity.isSome,
    keyIfSet "nfCndId" p.NfCndID.isSome,
    keyIfSet "nfScale" p.NfScale.isSome,
    keyIfSet "nfScaleQuantity" p.NfScaleQuantity.isSome,
    keyIfSet "orderable" p.Orderable.isSome,
    keyIfSet "ou" p.OrderUnit.isSome,
    keyIfSet "price" p.Price.isSome,
    keyIfSet "priceFormula" p.PriceFormula.isSome,
    keyIfSet "priceQty" p.PriceQty.isSome,
    keyIfSet "quantityInterval" p.QuantityInterval.isSome,
    keyIfSet "quantityMax" p.QuantityMax.isSome,
    keyIfSet "quantityMin" p.QuantityMin.isSome,
    keyIfSet "rateable" p.Rateable.isSome,
    keyIfSet "rateableOnlyIfOrdered" p.RateableOnlyIfOrdered.isSome,
    keyIfSet "references" (!p.References.isEmpty),
    keyIfSet "safetysheet" p.Safetysheet.isSome,
    keyIfSet "scalePrices" (!p.ScalePrices.isEmpty),
    keyIfSet "service" p.Service.isSome,
    keyIfSet "taxCode" p.TaxCode.isSome,
    keyIfSet "taxRate" p.TaxRate.isSome,
    keyIfSet "thumbnail" p.Thumbnail.isSome,
    keyIfSet "unspscs" (!p.Unspscs.isEmpty),
    keyIfSet "visible" p.Visible.isSome]

/-- The zero value `&UpdateProduct\x7b\x7d`: every pointer nil, every
slice nil. -/
def UpdateProduct.empty : UpdateProduct where
  Asin := none
  AutoConfigure := none
  Availability := none
  Blobs := []
  BoostFactor := none
  Bpn := none
  CatalogManaged := none
  Categories := []
  Conditions := []
  Contract := none
  ContractItem := none
  ConversionDenumerator := none
  ConversionNumerator := none
  Country := none
  ContentUnit := none
  CuPerOu := none
  Currency := none
  CustField1 := none
  CustField2 := none
  CustField3 := none
  CustField4 := none
  CustField5 := none
  CustFields := []
  CustomField10 := none
  CustomField11 := none
  CustomField12 := none
  CustomField13 := none
  CustomField14 := none
  CustomField15 := none
  CustomField16 := none
  CustomField17 := none
  CustomField18 := none
  CustomField19 := none
  CustomField20 := none
  CustomField21 := none
  CustomField22 := none
  CustomField23 := none
  CustomField24 := none
  CustomField25 := none
  CustomField26 := none
  CustomField27 := none
  CustomField28 := none
  CustomField29 := none
  CustomField30 := none
  CustomField6 := none
  CustomField7 := none
  CustomField8 := none
  CustomField9 := none
  Datasheet := none
  Description := none
  Eclasses := []
  ErpGroupSupplier := none
  Excluded := none
  ExtCategory := none
  ExtCategoryID := none
  ExtConfigForm := none
  ExtConfigService := none
  ExtProductID := none
  ExtSchemaType := none
  Features := []
  GlAccount := none
  Gtin := none
  Hazmats := []
  Image := none
  Incomplete := none
  Intrastat := none
  IsPassword := none
  KeepPrice := none
  Keywords := []
  Leadtime := none
  ListPrice := none
  Manufactcode := none
  Manufacturer := none
  Matgroup := none
  Mpn := none
  MultiSupplierID := none
  MultiSupplierName := none
  Name := none
  NeedsGoodsReceipt := none
  NfBasePrice := none
  NfBasePriceQuantity := none
  NfCndID := none
  NfScale := none
  NfScaleQuantity := none
  Orderable := none
  OrderUnit := none
  Price := none
  PriceFormula := none
  PriceQty := none
  QuantityInterval := none
  QuantityMax := none
  QuantityMin := none
  Rateable := none
  RateableOnlyIfOrdered := none
  References := []
  Safetysheet := none
  ScalePrices := []
  Service := none
  TaxCode := none
  TaxRate := none
  Thumbnail := none
  Unspscs := []
  Visible := none

/-- The payload of the spec's example: only `Name` set, to `"X"`. -/
def onlyNameX : UpdateProduct :=
  { UpdateProduct.empty with Name := some "X" }

/-- Embeds `meplatoapi.ReadJSON` (meplatoapi.go): the request body is the
JSON encoding of the payload; `json.Encoder.Encode` appends a trailing
newline. -/
def ReadJSON (fuel : Nat) (j : Json) : String :=
  renderJsonFuel fuel j ++ "\n"

theorem omitemptyPtr_keys (key : String) (v : Option Json) :
    (omitemptyPtr key v).map Prod.fst = keyIfSet key v.isSome := by
  cases v <;> simp [omitemptyPtr, keyIfSet]

theorem omitemptySlice_keys (key : String) (xs : List Json) :
    (omitemptySlice key xs).map Prod.fst = keyIfSet key (!xs.isEmpty) := by
  by_cases h : xs.isEmpty = true <;> simp [omitemptySlice, keyIfSet, h]

theorem isEmpty_map {α β : Type} (f : α → β) (xs : List α) :
    (xs.map f).isEmpty = xs.isEmpty := by
  cases xs <;> rfl

theorem isSome_map {α β : Type} (f : α → β) (v : Option α) :
    (v.map f).isSome = v.isSome := by
  cases v <;> rfl

theorem omitemptyPtr_map_ne_null {α : Type} (key : String) (v : Option α)
    (f : α → Json) (hf : ∀ a, f a ≠ Json.null) :
    ∀ kv ∈ omitemptyPtr key (v.map f), kv.2 ≠ Json.null := by
  cases v with
  | none => intro kv hkv; cases hkv
  | some a =>
    intro kv hkv
    cases hkv with
    | head => exact hf a
    | tail _ h => cases h

theorem omitemptySlice_ne_null (key : String) (xs : List Json) :
    ∀ kv ∈ omitemptySlice key xs, kv.2 ≠ Json.null := by
  intro kv hkv
  by_cases h : xs.isEmpty = true
  · simp [omitemptySlice, h] at hkv
  · simp [omitemptySlice, h] at hkv
    rw [hkv]
    intro hnull
    cases hnull

/-- The serialized keys are exactly the set-or-cleared keys, in
declaration order. -/
theorem marshal_keys (p : UpdateProduct) :
    p.marshal.map Prod.fst = p.setOrClearedKeys := by
  simp only [UpdateProduct.marshal, List.map_flatten, List.map_cons, List.map_nil,
    jsonFieldAsin, jsonFieldAutoConfigure, jsonFieldAvailability, jsonFieldBlobs, jsonFieldBoostFactor, jsonFieldBpn, jsonFieldCatalogManaged, jsonFieldCategories, jsonFieldConditions, jsonFieldContract, jsonFieldContractItem, jsonFieldConversionDenumerator, jsonFieldConversionNumerator, jsonFieldCountry, jsonFieldContentUnit, jsonFieldCuPerOu, jsonFieldCurrency, jsonFieldCustField1, jsonFieldCustField2, jsonFieldCustField3, jsonFieldCustField4, jsonFieldCustField5, jsonFieldCustFields, jsonFieldCustomField10, jsonFieldCustomField11, jsonFieldCustomField12, jsonFieldCustomField13, jsonFieldCustomField14, jsonFieldCustomField15, jsonFieldCustomField16, jsonFieldCustomField17, jsonFieldCustomField18, jsonFieldCustomField19, jsonFieldCustomField20, jsonFieldCustomField21, jsonFieldCustomField22, jsonFieldCustomField23, jsonFieldCustomField24, jsonFieldCustomField25, jsonFieldCustomField26, jsonFieldCustomField27, jsonFieldCustomField28, jsonFieldCustomField29, jsonFieldCustomField30, jsonFieldCustomField6, jsonFieldCustomField7, jsonFieldCustomField8, jsonFieldCustomField9, jsonFieldDatasheet, jsonFieldDescription, jsonFieldEclasses, jsonFieldErpGroupSupplier, jsonFieldExcluded, jsonFieldExtCategory, jsonFieldExtCategoryID, jsonFieldExtConfigForm, jsonFieldExtConfigService, jsonFieldExtProductID, jsonFieldExtSchemaType, jsonFieldFeatures, jsonFieldGlAccount, jsonFieldGtin, jsonFieldHazmats, jsonFieldImage, jsonFieldIncomplete, jsonFieldIntrastat, jsonFieldIsPassword, jsonFieldKeepPrice, jsonFieldKeywords, jsonFieldLeadtime, jsonFieldListPrice, jsonFieldManufactcode, jsonFieldManufacturer, jsonFieldMatgroup, jsonFieldMpn, jsonFieldMultiSupplierID, jsonFieldMultiSupplierName, jsonFieldName, jsonFieldNeedsGoodsReceipt, jsonFieldNfBasePrice, jsonFieldNfBasePriceQuantity, jsonFieldNfCndID, jsonFieldNfScale, jsonFieldNfScaleQuantity, jsonFieldOrderable, jsonFieldOrderUnit, jsonFieldPrice, jsonFieldPriceFormula, jsonFieldPriceQty, jsonFieldQuantityInterval, jsonFieldQuantityMax, jsonFieldQuantityMin, jsonFieldRateable, jsonFieldRateableOnlyIfOrdered, jsonFieldReferences, jsonFieldSafetysheet, jsonFieldScalePrices, jsonFieldService, jsonFieldTaxCode, jsonFieldTaxRate, jsonFieldThumbnail, jsonFieldUnspscs, jsonFieldVisible,
    omitemptyPtr_keys, omitemptySlice_keys, isSome_map, isEmpty_map,
    UpdateProduct.setOrClearedKeys]

/-- No field of the marshalled object ever carries JSON `null`. -/
theorem marshal_ne_null (p : UpdateProduct) :
    ∀ kv ∈ p.marshal, kv.2 ≠ Json.null := by
  intro kv hkv
  rw [UpdateProduct.marshal, List.mem_flatten] at hkv
  obtain ⟨l, hl, hkvl⟩ := hkv
  simp only [List.mem_cons, List.not_mem_nil, or_false] at hl
  rcases hl with rfl|rfl|rfl|rfl|rfl|rfl|rfl|rfl|rfl|rfl|rfl|rfl|rfl|rfl|rfl|rfl|rfl|rfl|rfl|rfl|rfl|rfl|rfl|rfl|rfl|rfl|rfl|rfl|rfl|rfl|rfl|rfl|rfl|rfl|rfl|rfl|rfl|rfl|rfl|rfl|rfl|rfl|rfl|rfl|rfl|rfl|rfl|rfl|rfl|rfl|rfl|rfl|rfl|rfl|rfl|rfl|rfl|rfl|rfl|rfl|rfl|rfl|rfl|rfl|rfl|rfl|rfl|rfl|rfl|rfl|rfl|rfl|rfl|rfl|rfl|rfl|rfl|rfl|rfl|rfl|rfl|rfl|rfl|rfl|rfl|rfl|rfl|rfl|rfl|rfl|rfl|rfl|rfl|rfl|rfl|rfl|rfl|rfl|rfl|rfl|rfl|rfl|rfl
  all_goals simp only [jsonFieldAsin, jsonFieldAutoConfigure, jsonFieldAvailability, jsonFieldBlobs, jsonFieldBoostFactor, jsonFieldBpn, jsonFieldCatalogManaged, jsonFieldCategories, jsonFieldConditions, jsonFieldContract, jsonFieldContractItem, jsonFieldConversionDenumerator, jsonFieldConversionNumerator, jsonFieldCountry, jsonFieldContentUnit, jsonFieldCuPerOu, jsonFieldCurrency, jsonFieldCustField1, jsonFieldCustField2, jsonFieldCustField3, jsonFieldCustField4, jsonFieldCustField5, jsonFieldCustFields, jsonFieldCustomField10, jsonFieldCustomField11, jsonFieldCustomField12, jsonFieldCustomField13, jsonFieldCustomField14, jsonFieldCustomField15, jsonFieldCustomField16, jsonFieldCustomField17, jsonFieldCustomField18, jsonFieldCustomField19, jsonFieldCustomField20, jsonFieldCustomField21, jsonFieldCustomField22, jsonFieldCustomField23, jsonFieldCustomField24, jsonFieldCustomField25, jsonFieldCustomField26, jsonFieldCustomField27, jsonFieldCustomField28, jsonFieldCustomField29, jsonFieldCustomField30, jsonFieldCustomField6, jsonFieldCustomField7, jsonFieldCustomField8, jsonFieldCustomField9, jsonFieldDatasheet, jsonFieldDescription, jsonFieldEclasses, jsonFieldErpGroupSupplier, jsonFieldExcluded, jsonFieldExtCategory, jsonFieldExtCategoryID, jsonFieldExtConfigForm, jsonFieldExtConfigService, jsonFieldExtProductID, jsonFieldExtSchemaType, jsonFieldFeatures, jsonFieldGlAccount, jsonFieldGtin, jsonFieldHazmats, jsonFieldImage, jsonFieldIncomplete, jsonFieldIntrastat, jsonFieldIsPassword, jsonFieldKeepPrice, jsonFieldKeywords, jsonFieldLeadtime, jsonFieldListPrice, jsonFieldManufactcode, jsonFieldManufacturer, jsonFieldMatgroup, jsonFieldMpn, jsonFieldMultiSupplierID, jsonFieldMultiSupplierName, jsonFieldName, jsonFieldNeedsGoodsReceipt, jsonFieldNfBasePrice, jsonFieldNfBasePriceQuantity, jsonFieldNfCndID, jsonFieldNfScale, jsonFieldNfScaleQuantity, jsonFieldOrderable, jsonFieldOrderUnit, jsonFieldPrice, jsonFieldPriceFormula, jsonFieldPriceQty, jsonFieldQuantityInterval, jsonFieldQuantityMax, jsonFieldQuantityMin, jsonFieldRateable, jsonFieldRateableOnlyIfOrdered, jsonFieldReferences, jsonFieldSafetysheet, jsonFieldScalePrices, jsonFieldService, jsonFieldTaxCode, jsonFieldTaxRate, jsonFieldThumbnail, jsonFieldUnspscs, jsonFieldVisible] at hkvl
  all_goals first
    | (refine omitemptyPtr_map_ne_null _ _ _ ?_ kv hkvl
       exact fun a h => Json.noConfusion h)
    | exact omitemptySlice_ne_null _ _ kv hkvl

set_option maxRecDepth 10000 in
/-- Claim C3: serializing a selective-update payload produces a JSON
object containing exactly the keys whose field is set or explicitly
cleared (in declaration order), never emitting an unset field — in
particular never as JSON `null`; and the payload with only `Name` set to
`"X"` serializes to exactly the object `\x7b"name":"X"\x7d` (with the
request body being that text plus the encoder's trailing newline), for
every sufficient rendering budget. -/
theorem updateProduct_selectiveSerialization :
    (∀ p : UpdateProduct,
      p.marshal.map Prod.fst = p.setOrClearedKeys
      ∧ ∀ kv ∈ p.marshal, kv.2 ≠ Json.null)
    ∧ (∀ fuel : Nat,
      renderJsonFuel (fuel + 2) (Json.obj onlyNameX.marshal) = "\x7b\"name\":\"X\"\x7d"
      ∧ ReadJSON (fuel + 2) (Json.obj onlyNameX.marshal) = "\x7b\"name\":\"X\"\x7d\n") := by
  refine ⟨fun p => ⟨marshal_keys p, marshal_ne_null p⟩, fun fuel => ⟨rfl, rfl⟩⟩

set_option maxRecDepth 10000 in
/-- Witness for C3 at the only-`Name`-set payload: its single marshalled
field is non-null, and the rendering at the smallest sufficient budget
is exactly the expected object text. -/
theorem updateProduct_selectiveSerialization_witness :
    (("name", Json.str "X") : String × Json).2 ≠ Json.null
    ∧ renderJsonFuel 2 (Json.obj onlyNameX.marshal) = "\x7b\"name\":\"X\"\x7d" :=
  ⟨(updateProduct_selectiveSerialization.1 onlyNameX).2 ("name", Json.str "X")
      (by rw [show onlyNameX.marshal = [("name", Json.str "X")] from rfl]
          exact List.mem_singleton.mpr rfl),
   (updateProduct_selectiveSerialization.2 0).1⟩

end Store2

